import Mathlib

/-!
Verification of the Misago read-tracker core (`misago/readtracker/threadstracker.py`).

Timestamps are modelled as `Int`, primary keys as `Nat`.  Python's dynamic
attributes injected onto thread/post objects (`is_read`, `is_new`,
`unread_replies`, `last_read_on`, `read_record`) are modelled as `Option`
fields: `none` means the attribute has not been set, so reading it raises
`AttributeError` in Python; functions that would raise on an unset attribute
return `Option`/`Except` results here.  Database record sets are modelled as
lists carried on the user; external collaborators (signals, the category
tracker, notification clearing) are modelled as counted events in the result
of the write path, faithful to their invocation points in the source.
-/

namespace Misago

/-- A post row: `posted_on` timestamp, moderation flag, and the `is_read`
annotation that `make_posts_read_aware` injects (absent before annotation). -/
structure Post where
  posted_on : Int
  is_moderated : Bool
  is_read : Option Bool := none
deriving DecidableEq

/-- A `ThreadRead` watermark row: per (user, thread) `last_read_on`
timestamp and `read_replies` count. -/
structure ThreadRead where
  thread_id : Nat
  category_id : Nat
  last_read_on : Int
  read_replies : Int
deriving DecidableEq

/-- A `CategoryRead` watermark row: per (user, category) `last_read_on`. -/
structure CategoryRead where
  category_id : Nat
  last_read_on : Int
deriving DecidableEq

/-- A thread row plus the annotations injected during read-state
derivation.  `posts` models `thread.post_set`.  `read_record` is doubly
optional: the outer `none` means the attribute was never set. -/
structure Thread where
  pk : Nat
  category_id : Nat
  last_post_on : Int
  replies : Int
  posts : List Post := []
  is_read : Option Bool := none
  is_new : Option Bool := none
  unread_replies : Option Int := none
  last_read_on : Option Int := none
  read_record : Option (Option ThreadRead) := none
deriving DecidableEq

/-- A user together with the watermark record sets the tracker queries
(`user.categoriesread_set`, `user.threadread_set`). -/
structure User where
  is_anonymous : Bool
  reads_cutoff : Int
  categoriesread_set : List CategoryRead := []
  threadread_set : List ThreadRead := []
deriving DecidableEq

/-- `user.is_authenticated()`. -/
def User.is_authenticated (user : User) : Bool :=
  !user.is_anonymous

/-- A read-aware category as passed to `make_category_threads_read_aware`:
its `is_read` flag and `last_read_on` watermark are already computed. -/
structure CategoryAware where
  is_read : Bool
  last_read_on : Int
deriving DecidableEq

/-- Modelled from the spec: `misago/readtracker/dates.py` is not part of the
provided sources, only its callers are.  Spec 4.1 (DateCutoffPolicy):
returns false when `content_date <= user.reads_cutoff`; if a `cutoff` is
supplied, also false when `content_date <= cutoff`; otherwise true. -/
def is_date_tracked (content_date : Int) (user : User) (cutoff : Option Int) : Bool :=
  if content_date ≤ user.reads_cutoff then false
  else
    match cutoff with
    | some c => decide (c < content_date)
    | none => true

/-- `make_read(threads)`: mark every thread read with zero unread replies. -/
def make_read (threads : List Thread) : List Thread :=
  threads.map fun thread =>
    { thread with unread_replies := some 0, is_read := some true, is_new := some false }

/-- Django `user.threadread_set.filter(thread__in=...)` iterated into a dict
keyed by `thread_id`: with several matching rows the last one wins, so the
effective lookup is the last row whose `thread_id` matches. -/
def get_thread_record (records : List ThreadRead) (pk : Nat) : Option ThreadRead :=
  (records.filter fun r => r.thread_id == pk).getLast?

/-- Lookup of the `CategoryRead` row for a category id, same convention. -/
def get_category_record (records : List CategoryRead) (category_id : Nat) : Option CategoryRead :=
  (records.filter fun r => r.category_id == category_id).getLast?

/-- The per-thread body of `make_threads_dict_read_aware`: refine one
provisionally-unread thread against its `ThreadRead` row, if any. -/
def refine_with_thread_record (user : User) (thread : Thread) : Thread :=
  match get_thread_record user.threadread_set thread.pk with
  | none => thread
  | some record =>
    let thread := { thread with
      is_new := some false,
      is_read := some (decide (thread.last_post_on ≤ record.last_read_on)) }
    if thread.is_read = some true then
      { thread with unread_replies := some 0 }
    else
      let u := thread.replies - record.read_replies
      { thread with unread_replies := some (if u < 1 then 1 else u) }

/-- `make_threads_dict_read_aware(user, threads_dict)`: bulk-refine the
provisionally-unread threads with their `ThreadRead` rows. -/
def make_threads_dict_read_aware (user : User) (threads_dict : List Thread) : List Thread :=
  threads_dict.map (refine_with_thread_record user)

/-- The provisional per-thread classification shared by both batch paths:
`is_read` from the date policy against the category cutoff, `is_new = true`,
`unread_replies` zero when read, else the raw reply count. -/
def provisional_thread_state (user : User) (cutoff : Option Int) (thread : Thread) : Thread :=
  let thread := { thread with
    is_read := some (!is_date_tracked thread.last_post_on user cutoff),
    is_new := some true }
  if thread.is_read = some true then
    { thread with unread_replies := some 0 }
  else
    { thread with unread_replies := some thread.replies }

/-- The fate of one batch thread: provisional classification against the
category cutoff, then refinement by its `ThreadRead` row exactly when the
provisional state is unread (only unread threads enter `threads_dict`).
Thread primary keys are unique, so the per-thread formulation coincides with
the loop-then-dict structure of the source. -/
def annotate_thread_in_batch (user : User) (cutoff : Option Int) (thread : Thread) : Thread :=
  let thread := provisional_thread_state user cutoff thread
  if thread.is_read = some false then refine_with_thread_record user thread else thread

/-- `make_category_threads_read_aware(user, category, threads)`: the batch
path when the category is known. -/
def make_category_threads_read_aware (user : User) (category : CategoryAware)
    (threads : List Thread) : List Thread :=
  if category.is_read then
    make_read threads
  else
    threads.map (annotate_thread_in_batch user (some category.last_read_on))

/-- `make_categories_threads_read_aware(user, threads)`: the batch path when
categories are unknown; each thread uses its own category's watermark
(missing watermark means only the global horizon applies). -/
def make_categories_threads_read_aware (user : User) (threads : List Thread) : List Thread :=
  threads.map fun thread =>
    annotate_thread_in_batch user
      ((get_category_record user.categoriesread_set thread.category_id).map
        (fun r => r.last_read_on))
      thread

/-- `make_threads_read_aware(user, threads, category=None)`: early return on
an empty batch, the anonymous short-circuit, then dispatch on whether the
category is known. -/
def make_threads_read_aware (user : User) (threads : List Thread)
    (category : Option CategoryAware) : List Thread :=
  if threads.isEmpty then threads
  else if user.is_anonymous then make_read threads
  else
    match category with
    | some c => make_category_threads_read_aware user c threads
    | none => make_categories_threads_read_aware user threads

/-- Storage-access and collaborator events of `make_thread_read_aware`:
how many `CategoryRead` lookups, `ThreadRead` lookups, and
`categoriestracker.start_record` calls the run performed. -/
structure SingleAwareEffects where
  category_lookups : Nat
  thread_lookups : Nat
  start_record_calls : Nat
deriving DecidableEq

/-- `make_thread_read_aware(user, thread)`: the single-thread annotation
path, returning the annotated thread together with its storage/collaborator
effects.  `now` stands for `timezone.now()`. -/
def make_thread_read_aware (now : Int) (user : User) (thread : Thread) :
    Thread × SingleAwareEffects :=
  let thread := { thread with
    is_read := some true, is_new := some false, read_record := some none }
  let thread :=
    if user.is_anonymous then { thread with last_read_on := some now }
    else { thread with last_read_on := some user.reads_cutoff }
  if user.is_authenticated && is_date_tracked thread.last_post_on user none then
    let thread := { thread with is_read := some false, is_new := some true }
    match get_category_record user.categoriesread_set thread.category_id with
    | some category_record =>
      if category_record.last_read_on < thread.last_post_on then
        match get_thread_record user.threadread_set thread.pk with
        | some thread_record =>
          let thread := { thread with
            last_read_on := some thread_record.last_read_on, is_new := some false }
          let thread :=
            if thread.last_post_on ≤ thread_record.last_read_on then
              { thread with is_read := some true }
            else thread
          ({ thread with read_record := some (some thread_record) }, ⟨1, 1, 0⟩)
        | none => (thread, ⟨1, 1, 0⟩)
      else
        ({ thread with is_read := some true, is_new := some false }, ⟨1, 0, 0⟩)
    | none => (thread, ⟨1, 0, 1⟩)
  else
    (thread, ⟨0, 0, 0⟩)

/-- The `ValueError` message of `make_posts_read_aware`. -/
def posts_usage_error : String :=
  "thread passed make_posts_read_aware should be read aware too via make_thread_read_aware"

/-- The `AttributeError` raised when an unread thread reaches the per-post
loop without a `last_read_on` annotation. -/
def last_read_on_attribute_error : String :=
  "AttributeError: thread has no attribute last_read_on"

/-- The per-post loop of `make_posts_read_aware` on an unread thread: each
tracked post is read iff `posted_on <= thread.last_read_on` (raising
`AttributeError` at the first tracked post if that annotation is absent),
each untracked post is read. -/
def read_posts_loop (user : User) (thread : Thread) : List Post → Except String (List Post)
  | [] => Except.ok []
  | post :: rest =>
    let head : Except String Post :=
      if is_date_tracked post.posted_on user none then
        match thread.last_read_on with
        | some lro => Except.ok { post with is_read := some (decide (post.posted_on ≤ lro)) }
        | none => Except.error last_read_on_attribute_error
      else
        Except.ok { post with is_read := some true }
    match head with
    | Except.error e => Except.error e
    | Except.ok p => (read_posts_loop user thread rest).map fun ps => p :: ps

/-- `make_posts_read_aware(user, thread, posts)`: fails with `ValueError`
when the thread carries no `is_read` annotation; on a read thread marks every
post read; on an unread thread runs the per-post loop. -/
def make_posts_read_aware (user : User) (thread : Thread) (posts : List Post) :
    Except String (List Post) :=
  match thread.is_read with
  | none => Except.error posts_usage_error
  | some true => Except.ok (posts.map fun post => { post with is_read := some true })
  | some false => read_posts_loop user thread posts

/-- `count_read_replies(user, thread, last_read_reply)`: non-moderated posts
with `posted_on <= last_read_reply.posted_on`, minus one for the starter. -/
def count_read_replies (user : User) (thread : Thread) (last_read_reply : Post) : Int :=
  let _ := user
  ((thread.posts.filter fun p =>
      p.posted_on ≤ last_read_reply.posted_on && !p.is_moderated).length : Int) - 1

/-- The outcome of one `sync_record` (or a guarded-out `read_thread`):
the updated user store and thread, the collaborator events it emitted, and
the record it wrote (`written`), when any. -/
structure SyncOutcome where
  user : User
  thread : Thread
  thread_tracked_signals : Nat
  thread_read_signals : Nat
  category_sync_calls : Nat
  notification_triggers : List String
  read_user_notifications_calls : Nat
  written : Option ThreadRead
deriving DecidableEq

/-- `sync_record(user, thread, last_read_reply)`: the atomic advance.
Returns `none` when `thread.read_record` was never set (Python would raise
`AttributeError`).  The update branch saves through the attached record; the
create branch appends a fresh row, emits the thread-tracked signal and adds
the see-thread trigger.  Reaching the thread's last post emits the
thread-read signal and the category cascade; notifications are cleared once
per call. -/
def sync_record (user : User) (thread : Thread) (last_read_reply : Post) :
    Option SyncOutcome :=
  match thread.read_record with
  | none => none
  | some attached =>
    let triggers := ["read_thread_" ++ toString thread.pk]
    let read_replies := count_read_replies user thread last_read_reply
    let step :
        User × Thread × Nat × List String × Option ThreadRead :=
      match attached with
      | some record =>
        let record := { record with
          read_replies := read_replies, last_read_on := last_read_reply.posted_on }
        let user := { user with
          threadread_set := user.threadread_set.map fun r =>
            if r.thread_id == record.thread_id then record else r }
        ⟨user, { thread with read_record := some (some record) }, 0, triggers, some record⟩
      | none =>
        let record : ThreadRead :=
          { thread_id := thread.pk, category_id := thread.category_id,
            read_replies := read_replies, last_read_on := last_read_reply.posted_on }
        let user := { user with threadread_set := user.threadread_set ++ [record] }
        ⟨user, thread, 1, triggers ++ ["see_thread_" ++ toString thread.pk], some record⟩
    let fully_read := last_read_reply.posted_on = thread.last_post_on
    some
      { user := step.1
        thread := step.2.1
        thread_tracked_signals := step.2.2.1
        thread_read_signals := if fully_read then 1 else 0
        category_sync_calls := if fully_read then 1 else 0
        notification_triggers := step.2.2.2.1
        read_user_notifications_calls := 1
        written := step.2.2.2.2 }

/-- The outcome of a `read_thread` call whose guard rejected the advance:
nothing changes and no collaborator is invoked. -/
def noop_outcome (user : User) (thread : Thread) : SyncOutcome :=
  { user := user, thread := thread, thread_tracked_signals := 0,
    thread_read_signals := 0, category_sync_calls := 0,
    notification_triggers := [], read_user_notifications_calls := 0,
    written := none }

/-- `read_thread(user, thread, last_read_reply)`: advance only when the
thread is currently unread and the reply is strictly newer than the thread's
annotated watermark.  Returns `none` when an annotation attribute the guard
needs is absent (Python `AttributeError`). -/
def read_thread (user : User) (thread : Thread) (last_read_reply : Post) :
    Option SyncOutcome :=
  match thread.is_read with
  | none => none
  | some is_read =>
    if is_read then some (noop_outcome user thread)
    else
      match thread.last_read_on with
      | none => none
      | some lro =>
        if lro < last_read_reply.posted_on then sync_record user thread last_read_reply
        else some (noop_outcome user thread)

/-! ### Concrete instances used by counterexamples and witnesses -/

def c1x_user : User := { is_anonymous := true, reads_cutoff := 0 }

def c1x_thread : Thread :=
  { pk := 3, category_id := 1, last_post_on := 5, replies := 5, unread_replies := some 5 }

def c1w_user : User := { is_anonymous := false, reads_cutoff := 10 }

def c1w_thread : Thread :=
  { pk := 4, category_id := 1, last_post_on := 5, replies := 2,
    posts := [{ posted_on := 3, is_moderated := false }, { posted_on := 4, is_moderated := false },
              { posted_on := 5, is_moderated := false }] }

def c2x_user : User := { is_anonymous := false, reads_cutoff := 0 }

def c2x_thread : Thread :=
  { pk := 1, category_id := 1, last_post_on := 5, replies := 1,
    posts := [{ posted_on := 1, is_moderated := false }, { posted_on := 5, is_moderated := false }],
    is_read := some false, last_read_on := some 0, read_record := some none }

def c2x_reply : Post := { posted_on := 5, is_moderated := false }

def c2w_user : User := { is_anonymous := false, reads_cutoff := 0 }

def c2w_thread : Thread :=
  { pk := 2, category_id := 1, last_post_on := 9, replies := 1,
    is_read := some false, last_read_on := some 9, read_record := some none }

def c2w_reply : Post := { posted_on := 9, is_moderated := false }

def c3x_record : ThreadRead :=
  { thread_id := 9, category_id := 1, last_read_on := 10, read_replies := 2 }

def c3x_user : User :=
  { is_anonymous := false, reads_cutoff := 0, threadread_set := [c3x_record] }

def c3x_thread : Thread :=
  { pk := 9, category_id := 1, last_post_on := 20, replies := 3,
    posts := [{ posted_on := 1, is_moderated := false }],
    is_read := some false, last_read_on := some 10, read_record := some (some c3x_record) }

def c3x_reply : Post := { posted_on := 5, is_moderated := false }

def c3w_record : ThreadRead :=
  { thread_id := 14, category_id := 1, last_read_on := 10, read_replies := 2 }

def c3w_user : User :=
  { is_anonymous := false, reads_cutoff := 0, threadread_set := [c3w_record] }

def c3w_thread : Thread :=
  { pk := 14, category_id := 1, last_post_on := 20, replies := 3,
    posts := [{ posted_on := 1, is_moderated := false }, { posted_on := 20, is_moderated := false }],
    is_read := some false, last_read_on := some 10, read_record := some (some c3w_record) }

def c3w_reply : Post := { posted_on := 20, is_moderated := false }

def c4w_record : ThreadRead :=
  { thread_id := 7, category_id := 2, last_read_on := 5, read_replies := 3 }

def c4w_user : User :=
  { is_anonymous := false, reads_cutoff := 0, threadread_set := [c4w_record] }

def c4w_thread : Thread :=
  { pk := 7, category_id := 2, last_post_on := 9, replies := 10,
    is_read := some false, is_new := some true, unread_replies := some 10 }

def c5w_user : User := { is_anonymous := false, reads_cutoff := 0 }

def c5w_thread : Thread :=
  { pk := 6, category_id := 2, last_post_on := 5, replies := 1,
    posts := [{ posted_on := 1, is_moderated := false }, { posted_on := 5, is_moderated := false }],
    is_read := some false, last_read_on := some 0, read_record := some none }

def c5w_reply : Post := { posted_on := 5, is_moderated := false }

def c6w_user : User := { is_anonymous := false, reads_cutoff := 0 }

def c6w_thread : Thread := { pk := 5, category_id := 3, last_post_on := 7, replies := 2 }

def c7x_user : User := { is_anonymous := false, reads_cutoff := 10 }

def c7x_thread : Thread := { pk := 4, category_id := 1, last_post_on := 9, replies := 2 }

def c7w_user : User := { is_anonymous := false, reads_cutoff := 10 }

def c7w_thread : Thread := { pk := 5, category_id := 2, last_post_on := 9, replies := 2 }

def c8x_user : User := { is_anonymous := false, reads_cutoff := 0 }

def c8x_thread : Thread :=
  { pk := 12, category_id := 1, last_post_on := 5, replies := 1, is_read := some false }

def c8x_posts : List Post := [{ posted_on := 3, is_moderated := false }]

def c8w_user : User := { is_anonymous := false, reads_cutoff := 0 }

def c8w_thread : Thread :=
  { pk := 13, category_id := 1, last_post_on := 7, replies := 2,
    is_read := some false, last_read_on := some 5 }

def c8w_posts : List Post :=
  [{ posted_on := -1, is_moderated := false }, { posted_on := 3, is_moderated := false },
   { posted_on := 7, is_moderated := false }]

def c9x_user : User := { is_anonymous := true, reads_cutoff := 0 }

def c9x_thread : Thread :=
  { pk := 8, category_id := 1, last_post_on := 5, replies := 5, unread_replies := some 3 }

def c9w_user : User := { is_anonymous := true, reads_cutoff := 0 }

def c9w_thread : Thread := { pk := 2, category_id := 1, last_post_on := 8, replies := 4 }

def c10w_user : User := { is_anonymous := false, reads_cutoff := 0 }

def c10w_thread : Thread :=
  { pk := 11, category_id := 1, last_post_on := 5, replies := 0,
    posts := [{ posted_on := 1, is_moderated := true }], read_record := some none }

def c10w_reply : Post := { posted_on := 2, is_moderated := false }

/-- The concrete outcome of the C5 witness run. -/
def c5w_res : SyncOutcome :=
  (sync_record c5w_user c5w_thread c5w_reply).getD (noop_outcome c5w_user c5w_thread)

/-! ### Helper lemmas -/

lemma see_trigger_ne_read_trigger (s : String) :
    "see_thread_" ++ s ≠ "read_thread_" ++ s := by
  intro hs
  have h2 := congrArg (fun t => t.data.length) hs
  simp only [String.data_append, List.length_append, List.length_cons,
    List.length_nil] at h2
  omega

lemma provisional_thread_state_eq (user : User) (cutoff : Option Int) (t : Thread) :
    provisional_thread_state user cutoff t =
      { t with is_read := some (!is_date_tracked t.last_post_on user cutoff),
               is_new := some true,
               unread_replies :=
                 some (if is_date_tracked t.last_post_on user cutoff then t.replies else 0) } := by
  cases htr : is_date_tracked t.last_post_on user cutoff <;>
    simp [provisional_thread_state, htr]

lemma refine_with_thread_record_none (user : User) (t : Thread)
    (h : get_thread_record user.threadread_set t.pk = none) :
    refine_with_thread_record user t = t := by
  simp [refine_with_thread_record, h]

lemma refine_with_thread_record_some (user : User) (t : Thread) (record : ThreadRead)
    (h : get_thread_record user.threadread_set t.pk = some record) :
    refine_with_thread_record user t =
      { t with is_new := some false,
               is_read := some (decide (t.last_post_on ≤ record.last_read_on)),
               unread_replies := some (if t.last_post_on ≤ record.last_read_on then 0
                 else if t.replies - record.read_replies < 1 then 1
                 else t.replies - record.read_replies) } := by
  by_cases hle : t.last_post_on ≤ record.last_read_on <;>
    simp [refine_with_thread_record, h, hle]

lemma ite_lt_one_eq_max (u : Int) : (if u < 1 then 1 else u) = max 1 u := by
  rcases lt_or_le u 1 with h | h
  · simp [h, max_eq_left h.le]
  · simp [not_lt.mpr h, max_eq_right h]

lemma make_read_mem (threads : List Thread) (t : Thread) (h : t ∈ make_read threads) :
    t.is_read = some true ∧ t.is_new = some false ∧ t.unread_replies = some 0 := by
  simp only [make_read, List.mem_map] at h
  obtain ⟨x, _, rfl⟩ := h
  exact ⟨rfl, rfl, rfl⟩

lemma annotate_thread_in_batch_spec (user : User) (cutoff : Option Int) (x : Thread) :
    (annotate_thread_in_batch user cutoff x).replies = x.replies ∧
    (annotate_thread_in_batch user cutoff x).posts = x.posts ∧
    ((annotate_thread_in_batch user cutoff x).is_read = some true →
      (annotate_thread_in_batch user cutoff x).unread_replies = some 0) ∧
    ((annotate_thread_in_batch user cutoff x).is_read = some false →
      (annotate_thread_in_batch user cutoff x).unread_replies = some x.replies ∨
      ∃ v, (annotate_thread_in_batch user cutoff x).unread_replies = some v ∧ 1 ≤ v) := by
  unfold annotate_thread_in_batch
  rw [provisional_thread_state_eq]
  cases htr : is_date_tracked x.last_post_on user cutoff
  · simp
  · simp only [Bool.not_true, if_pos rfl, reduceCtorEq, if_true]
    cases hrec : get_thread_record user.threadread_set x.pk with
    | none =>
      rw [refine_with_thread_record_none user
        { x with is_read := some false, is_new := some true,
                 unread_replies := some x.replies } hrec]
      simp
    | some record =>
      rw [refine_with_thread_record_some user
        { x with is_read := some false, is_new := some true,
                 unread_replies := some x.replies } record hrec]
      by_cases hle : x.last_post_on ≤ record.last_read_on
      · simp [hle]
      · simp only [hle, decide_eq_true_eq, if_neg hle]
        refine ⟨by trivial, by trivial, by simp, fun _ => Or.inr ?_⟩
        refine ⟨_, rfl, ?_⟩
        by_cases hd : x.replies - record.read_replies < 1
        · simp [hd]
        · simp [hd]
          omega

lemma batch_member_invariant (user : User) (cutoff : Option Int) (x : Thread) :
    ((annotate_thread_in_batch user cutoff x).is_read = some true →
      (annotate_thread_in_batch user cutoff x).unread_replies = some 0) ∧
    ((annotate_thread_in_batch user cutoff x).is_read = some false →
      (annotate_thread_in_batch user cutoff x).posts.drop 1 ≠ [] →
      ((annotate_thread_in_batch user cutoff x).posts.length : Int) =
        (annotate_thread_in_batch user cutoff x).replies + 1 →
      ∃ v, (annotate_thread_in_batch user cutoff x).unread_replies = some v ∧ 1 ≤ v) := by
  obtain ⟨hrep, hposts, h0, h1⟩ := annotate_thread_in_batch_spec user cutoff x
  refine ⟨h0, fun hf hd hlen => ?_⟩
  rcases h1 hf with h | h
  · refine ⟨x.replies, h, ?_⟩
    rw [hposts] at hd
    rw [hposts, hrep] at hlen
    have h2 : 2 ≤ x.posts.length := by
      by_contra hcon
      exact hd (List.drop_eq_nil_of_le (by omega))
    omega
  · exact h

/-! ### Claims -/

/-- C1, counterexample: the claim quantifies over every annotation path,
including `make_thread_read_aware`, but that path never assigns
`unread_replies`.  A thread previously batch-annotated unread (so carrying
`unread_replies = 5`) is re-annotated by the single-thread path as read, yet
keeps `unread_replies = 5`, contradicting the claimed invariant
`is_read = true implies unread_replies = 0`. -/
theorem c1_counterexample :
    (make_thread_read_aware 100 c1x_user c1x_thread).1.is_read = some true ∧
    (make_thread_read_aware 100 c1x_user c1x_thread).1.unread_replies = some 5 := by
  constructor <;> decide

/-- C1, amended: after the batch annotation paths (`make_threads_read_aware`
with or without a known category, including the anonymous short-circuit), a
thread marked read has `unread_replies = 0`, and a thread marked unread that
has at least one reply (in particular, one trackable reply past the
watermark) has `unread_replies >= 1`.  The single-thread path
`make_thread_read_aware` is excluded: it does not assign `unread_replies`. -/
theorem c1_batch_unread_replies_invariant (user : User) (threads : List Thread)
    (category : Option CategoryAware) :
    ∀ t ∈ make_threads_read_aware user threads category,
      (t.is_read = some true → t.unread_replies = some 0) ∧
      (t.is_read = some false → t.posts.drop 1 ≠ [] →
        (t.posts.length : Int) = t.replies + 1 →
        ∃ v, t.unread_replies = some v ∧ 1 ≤ v) := by
  intro t ht
  by_cases hemp : threads.isEmpty
  · have hnil : threads = [] := by
      cases threads with
      | nil => rfl
      | cons a l => simp [List.isEmpty] at hemp
    subst hnil
    simp [make_threads_read_aware] at ht
  · by_cases hanon : user.is_anonymous
    · rw [show make_threads_read_aware user threads category = make_read threads from by
        cases category <;> simp [make_threads_read_aware, hemp, hanon]] at ht
      obtain ⟨h1, _, h3⟩ := make_read_mem threads t ht
      exact ⟨fun _ => h3, fun hf => absurd (h1.symm.trans hf) (by simp)⟩
    · cases category with
      | some c =>
        by_cases hcr : c.is_read
        · rw [show make_threads_read_aware user threads (some c) = make_read threads from by
            simp [make_threads_read_aware, make_category_threads_read_aware, hemp, hanon,
              hcr]] at ht
          obtain ⟨h1, _, h3⟩ := make_read_mem threads t ht
          exact ⟨fun _ => h3, fun hf => absurd (h1.symm.trans hf) (by simp)⟩
        · rw [show make_threads_read_aware user threads (some c) =
              threads.map (annotate_thread_in_batch user (some c.last_read_on)) from by
            simp [make_threads_read_aware, make_category_threads_read_aware, hemp, hanon,
              hcr]] at ht
          rw [List.mem_map] at ht
          obtain ⟨x, _, rfl⟩ := ht
          exact batch_member_invariant user _ x
      | none =>
        rw [show make_threads_read_aware user threads none =
            make_categories_threads_read_aware user threads from by
          simp [make_threads_read_aware, hemp, hanon]] at ht
        unfold make_categories_threads_read_aware at ht
        rw [List.mem_map] at ht
        obtain ⟨x, _, rfl⟩ := ht
        exact batch_member_invariant user _ x

/-- Witness for the amended C1: a concrete untracked thread in a one-element
batch is marked read and its `unread_replies` is `0`. -/
theorem c1_batch_unread_replies_invariant_witness :
    annotate_thread_in_batch c1w_user none c1w_thread ∈
        make_threads_read_aware c1w_user [c1w_thread] none ∧
    (annotate_thread_in_batch c1w_user none c1w_thread).is_read = some true ∧
    (annotate_thread_in_batch c1w_user none c1w_thread).unread_replies = some 0 := by
  have hmem : annotate_thread_in_batch c1w_user none c1w_thread ∈
      make_threads_read_aware c1w_user [c1w_thread] none := by decide
  have h := c1_batch_unread_replies_invariant c1w_user [c1w_thread] none _ hmem
  exact ⟨hmem, by decide, h.1 (by decide)⟩

/-- C4: the refinement pass.  With a matching record the thread gets
`is_new = false`, `is_read = (record.last_read_on >= thread.last_post_on)`,
`unread_replies = 0` when read and `max 1 (replies - read_replies)` when
unread; without a record the thread is returned unchanged; the pass is the
per-thread refinement mapped over the dict. -/
theorem c4_refinement_pass (user : User) (t : Thread) :
    (∀ record, get_thread_record user.threadread_set t.pk = some record →
      refine_with_thread_record user t =
        { t with is_new := some false,
                 is_read := some (decide (t.last_post_on ≤ record.last_read_on)),
                 unread_replies := some (if t.last_post_on ≤ record.last_read_on then 0
                   else max 1 (t.replies - record.read_replies)) }) ∧
    (get_thread_record user.threadread_set t.pk = none →
      refine_with_thread_record user t = t) ∧
    (∀ threads_dict, make_threads_dict_read_aware user threads_dict =
      threads_dict.map (refine_with_thread_record user)) := by
  refine ⟨fun record hrec => ?_, fun hrec => refine_with_thread_record_none user t hrec,
    fun _ => rfl⟩
  rw [refine_with_thread_record_some user t record hrec, ite_lt_one_eq_max]

/-- Witness for C4 (spec Scenario D): `read_replies = 3`, `replies = 10`,
stale watermark gives `unread_replies = 7` and `is_read = false`. -/
theorem c4_refinement_pass_witness :
    get_thread_record c4w_user.threadread_set c4w_thread.pk = some c4w_record ∧
    (refine_with_thread_record c4w_user c4w_thread).unread_replies = some 7 ∧
    (refine_with_thread_record c4w_user c4w_thread).is_read = some false := by
  have h := (c4_refinement_pass c4w_user c4w_thread).1 c4w_record (by decide)
  rw [h]
  refine ⟨by decide, by decide, by decide⟩

/-- C7, counterexample: for a thread whose `last_post_on` predates the
user's `reads_cutoff`, the batch path does return `is_read = true` but sets
`is_new = true` (line 69 of the source sets `is_new = True` for every
thread), not `is_new = false` as claimed, and it always performs the bulk
category-watermark fetch. -/
theorem c7_counterexample :
    c7x_thread.last_post_on < c7x_user.reads_cutoff ∧
    (make_threads_read_aware c7x_user [c7x_thread] none).map (fun t => (t.is_read, t.is_new)) =
      [(some true, some true)] := by
  constructor <;> decide

/-- C7, amended: only the single-thread path `make_thread_read_aware` yields
`is_read = true`, `is_new = false` with no storage lookups for a thread
older than the user's horizon; the batch paths mark such a thread read with
`is_new = true` and always fetch category watermarks. -/
theorem c7_untracked_single_thread (now : Int) (user : User) (thread : Thread)
    (h : thread.last_post_on < user.reads_cutoff) :
    (make_thread_read_aware now user thread).1.is_read = some true ∧
    (make_thread_read_aware now user thread).1.is_new = some false ∧
    (make_thread_read_aware now user thread).2 = ⟨0, 0, 0⟩ := by
  have ht : is_date_tracked thread.last_post_on user none = false := by
    simp [is_date_tracked, le_of_lt h]
  by_cases ha : user.is_anonymous <;>
    simp [make_thread_read_aware, User.is_authenticated, ha, ht]

/-- Witness for the amended C7 (spec Scenario A, single-thread path). -/
theorem c7_untracked_single_thread_witness :
    c7w_thread.last_post_on < c7w_user.reads_cutoff ∧
    (make_thread_read_aware 50 c7w_user c7w_thread).1.is_read = some true ∧
    (make_thread_read_aware 50 c7w_user c7w_thread).1.is_new = some false ∧
    (make_thread_read_aware 50 c7w_user c7w_thread).2 = ⟨0, 0, 0⟩ := by
  have h := c7_untracked_single_thread 50 c7w_user c7w_thread (by decide)
  exact ⟨by decide, h.1, h.2.1, h.2.2⟩

/-- C9, counterexample: for an anonymous user the single-thread path marks
the thread read and not-new but does not assign `unread_replies`; a thread
carrying a stale `unread_replies = 3` keeps it, contradicting the claimed
`unread_replies = 0` for every annotated thread. -/
theorem c9_counterexample :
    c9x_user.is_anonymous = true ∧
    (make_thread_read_aware 100 c9x_user c9x_thread).1.is_read = some true ∧
    (make_thread_read_aware 100 c9x_user c9x_thread).1.unread_replies = some 3 := by
  refine ⟨rfl, by decide, by decide⟩

/-- C9, amended: for an anonymous user the batch path reduces to
`make_read` (so it is independent of the stored watermarks), marking every
thread `is_read = true`, `is_new = false`, `unread_replies = 0`; the
single-thread path marks the thread `is_read = true`, `is_new = false` with
no storage access but leaves `unread_replies` unassigned. -/
theorem c9_anonymous_paths (user : User) (threads : List Thread)
    (category : Option CategoryAware) (now : Int) (thread : Thread)
    (h : user.is_anonymous = true) :
    make_threads_read_aware user threads category = make_read threads ∧
    (∀ t ∈ make_read threads,
      t.is_read = some true ∧ t.is_new = some false ∧ t.unread_replies = some 0) ∧
    (make_thread_read_aware now user thread).1.is_read = some true ∧
    (make_thread_read_aware now user thread).1.is_new = some false ∧
    (make_thread_read_aware now user thread).1.unread_replies = thread.unread_replies ∧
    (make_thread_read_aware now user thread).2 = ⟨0, 0, 0⟩ := by
  have hs : make_thread_read_aware now user thread =
      ({ thread with
            is_read := some true, is_new := some false, read_record := some none,
            last_read_on := some now },
        ⟨0, 0, 0⟩) := by
    simp [make_thread_read_aware, User.is_authenticated, h]
  refine ⟨?_, fun t ht => make_read_mem threads t ht, ?_, ?_, ?_, ?_⟩
  · cases threads with
    | nil => rfl
    | cons a l => simp [make_threads_read_aware, h]
  all_goals rw [hs]

/-- Witness for the amended C9. -/
theorem c9_anonymous_paths_witness :
    c9w_user.is_anonymous = true ∧
    make_threads_read_aware c9w_user [c9w_thread] none = make_read [c9w_thread] ∧
    (make_thread_read_aware 50 c9w_user c9w_thread).1.is_read = some true ∧
    (make_thread_read_aware 50 c9w_user c9w_thread).2 = ⟨0, 0, 0⟩ := by
  have h := c9_anonymous_paths c9w_user [c9w_thread] none 50 c9w_thread rfl
  exact ⟨rfl, h.1, h.2.2.1, h.2.2.2.2.2⟩

/-- C10: `sync_record` stores `read_replies` exactly equal to the count of
non-moderated posts with `posted_on <= last_read_reply.posted_on` minus one,
with no lower bound: when no post qualifies the stored value is `-1`.  In
the creation branch the written row is appended to the store. -/
theorem c10_read_replies_no_floor (user : User) (thread : Thread) (last_read_reply : Post)
    (attached : Option ThreadRead) (h : thread.read_record = some attached) :
    ∀ res, sync_record user thread last_read_reply = some res →
      ∃ w, res.written = some w ∧
        w.read_replies = count_read_replies user thread last_read_reply ∧
        w.last_read_on = last_read_reply.posted_on ∧
        count_read_replies user thread last_read_reply =
          ((thread.posts.filter fun p =>
              p.posted_on ≤ last_read_reply.posted_on && !p.is_moderated).length : Int) - 1 ∧
        ((thread.posts.filter fun p =>
            p.posted_on ≤ last_read_reply.posted_on && !p.is_moderated) = [] →
          count_read_replies user thread last_read_reply = -1) ∧
        (attached = none → res.user.threadread_set = user.threadread_set ++ [w]) := by
  intro res hres
  unfold sync_record at hres
  rw [h] at hres
  cases attached with
  | some record =>
    injection hres with hres
    subst hres
    refine ⟨_, rfl, rfl, rfl, rfl, ?_, ?_⟩
    · intro hf
      simp [count_read_replies, hf]
    · intro hc
      cases hc
  | none =>
    injection hres with hres
    subst hres
    refine ⟨_, rfl, rfl, rfl, rfl, ?_, fun _ => rfl⟩
    intro hf
    simp [count_read_replies, hf]

/-- Witness for C10: a thread whose only post is moderated yields a stored
`read_replies` of `-1`, and the created row is appended to the store. -/
theorem c10_read_replies_no_floor_witness :
    c10w_thread.read_record = some none ∧
    count_read_replies c10w_user c10w_thread c10w_reply = -1 ∧
    ((sync_record c10w_user c10w_thread c10w_reply).map fun res => res.written) =
      some (some { thread_id := 11, category_id := 1, last_read_on := 2, read_replies := -1 }) := by
  have h := c10_read_replies_no_floor c10w_user c10w_thread c10w_reply none rfl
    ((sync_record c10w_user c10w_thread c10w_reply).getD
      (noop_outcome c10w_user c10w_thread)) rfl
  obtain ⟨w, hw, hrr, hlr, hcount, hempty, happ⟩ := h
  exact ⟨rfl, hempty (by decide), by decide⟩

/-- C2, counterexample: `sync_record` does not update the thread's
annotated `is_read`/`last_read_on`, so a literal second `read_thread` call
with the same arguments passes the guard again: with no record attached
(the creation branch) it creates a second `ThreadRead` row and clears
notifications again — not a no-op. -/
theorem c2_counterexample :
    (read_thread c2x_user c2x_thread c2x_reply).map
        (fun r1 => r1.user.threadread_set.length) = some 1 ∧
    ((read_thread c2x_user c2x_thread c2x_reply).bind fun r1 =>
      (read_thread r1.user r1.thread c2x_reply).map fun r2 =>
        (r2.user.threadread_set.length, r2.notification_triggers,
          r2.read_user_notifications_calls)) =
      some (2, ["read_thread_1", "see_thread_1"], 1) := by
  refine ⟨by decide, by decide⟩

/-- C2, amended: `read_thread` is a no-op (no store change, no signals, no
notification clears) exactly when the guard rejects: the thread's annotated
state already covers the reply, i.e. `is_read` is true or the annotated
`last_read_on` is at least the reply's `posted_on`.  A repeated call is a
no-op only once the annotations have been refreshed to reflect the first
call (as re-annotation via `make_thread_read_aware` does). -/
theorem c2_read_thread_guard_noop (user : User) (thread : Thread) (last_read_reply : Post)
    (b : Bool) (hb : thread.is_read = some b)
    (h : b = true ∨ ∃ w, thread.last_read_on = some w ∧ last_read_reply.posted_on ≤ w) :
    read_thread user thread last_read_reply = some (noop_outcome user thread) := by
  cases b with
  | true => simp [read_thread, hb]
  | false =>
    rcases h with h | ⟨w, hw, hle⟩
    · cases h
    · simp [read_thread, hb, hw, not_lt.mpr hle]

/-- Witness for the amended C2. -/
theorem c2_read_thread_guard_noop_witness :
    c2w_thread.is_read = some false ∧
    c2w_thread.last_read_on = some 9 ∧
    c2w_reply.posted_on ≤ 9 ∧
    read_thread c2w_user c2w_thread c2w_reply = some (noop_outcome c2w_user c2w_thread) := by
  refine ⟨rfl, rfl, by decide, ?_⟩
  exact c2_read_thread_guard_noop c2w_user c2w_thread c2w_reply false rfl
    (Or.inr ⟨9, rfl, by decide⟩)

/-- C3, counterexample: `sync_record` overwrites the stored watermark with
`last_read_reply.posted_on` unconditionally; called with a reply older than
the stored `last_read_on = 10` it regresses the watermark to `5`. -/
theorem c3_counterexample :
    c3x_user.threadread_set.map (fun r => r.last_read_on) = [10] ∧
    ((sync_record c3x_user c3x_thread c3x_reply).map fun res =>
      res.user.threadread_set.map fun r => r.last_read_on) = some [5] := by
  refine ⟨rfl, by decide⟩

/-- C3, amended: the stored thread watermark never decreases across
`sync_record` calls made through `read_thread` on a thread whose annotation
is consistent with its attached stored record (`read_record` attached,
annotated `last_read_on` equal to the record's, store holding that record
for this thread); `sync_record` itself sets the watermark to exactly
`last_read_reply.posted_on` and can regress it when invoked directly. -/
theorem c3_watermark_monotone_via_read_thread (user : User) (thread : Thread)
    (last_read_reply : Post) (record : ThreadRead) (b : Bool) (res : SyncOutcome)
    (hattach : thread.read_record = some (some record))
    (hpk : record.thread_id = thread.pk)
    (hlro : thread.last_read_on = some record.last_read_on)
    (hread : thread.is_read = some b)
    (huniq : ∀ r ∈ user.threadread_set, r.thread_id = thread.pk → r = record)
    (hres : read_thread user thread last_read_reply = some res) :
    ∀ r ∈ res.user.threadread_set, r.thread_id = thread.pk →
      record.last_read_on ≤ r.last_read_on := by
  cases b with
  | true =>
    have h1 : some (noop_outcome user thread) = some res := by
      simpa [read_thread, hread] using hres
    cases Option.some.inj h1
    intro r hr hrpk
    rw [huniq r hr hrpk]
  | false =>
    by_cases hlt : record.last_read_on < last_read_reply.posted_on
    · have hsync : sync_record user thread last_read_reply = some res := by
        simpa [read_thread, hread, hlro, hlt] using hres
      unfold sync_record at hsync
      rw [hattach] at hsync
      injection hsync with hsync
      subst hsync
      intro r hr hrpk
      simp only [List.mem_map] at hr
      obtain ⟨x, hx, rfl⟩ := hr
      by_cases hxid : (x.thread_id == record.thread_id) = true
      · rw [if_pos hxid]
        exact le_of_lt hlt
      · rw [if_neg hxid] at hrpk ⊢
        exact absurd (hrpk.trans hpk.symm) (by simpa using hxid)
    · have h1 : some (noop_outcome user thread) = some res := by
        simpa [read_thread, hread, hlro, hlt] using hres
      cases Option.some.inj h1
      intro r hr hrpk
      rw [huniq r hr hrpk]

/-- Witness for the amended C3: reading a newer reply (posted at 20)
advances the stored watermark from 10 to 20. -/
theorem c3_watermark_monotone_via_read_thread_witness :
    c3w_thread.read_record = some (some c3w_record) ∧
    c3w_thread.last_read_on = some c3w_record.last_read_on ∧
    c3w_thread.is_read = some false ∧
    c3w_record.last_read_on ≤
      ({ thread_id := 14, category_id := 1, last_read_on := 20, read_replies := 1 } :
        ThreadRead).last_read_on := by
  refine ⟨rfl, rfl, rfl, ?_⟩
  have h := c3_watermark_monotone_via_read_thread c3w_user c3w_thread c3w_reply c3w_record
    false ((read_thread c3w_user c3w_thread c3w_reply).getD
      (noop_outcome c3w_user c3w_thread))
    rfl rfl rfl rfl (by decide) rfl
  exact h _ (by decide) (by decide)

/-- C5: every `sync_record` call clears notifications for the
`read_thread_<id>` trigger; the thread-tracked signal and the
`see_thread_<id>` trigger occur exactly when no record is attached (the
creation branch); the thread-read signal and the category cascade each
occur exactly once, exactly when `last_read_reply.posted_on` equals
`thread.last_post_on`; notifications are cleared exactly once. -/
theorem c5_sync_record_events (user : User) (thread : Thread) (last_read_reply : Post)
    (attached : Option ThreadRead) (h : thread.read_record = some attached) :
    (sync_record user thread last_read_reply).isSome = true ∧
    ∀ res, sync_record user thread last_read_reply = some res →
      ("read_thread_" ++ toString thread.pk) ∈ res.notification_triggers ∧
      res.thread_tracked_signals = (if attached = none then 1 else 0) ∧
      ((("see_thread_" ++ toString thread.pk) ∈ res.notification_triggers) ↔ attached = none) ∧
      res.thread_read_signals =
        (if last_read_reply.posted_on = thread.last_post_on then 1 else 0) ∧
      res.category_sync_calls =
        (if last_read_reply.posted_on = thread.last_post_on then 1 else 0) ∧
      res.read_user_notifications_calls = 1 := by
  constructor
  · simp [sync_record, h]
  · intro res hres
    unfold sync_record at hres
    rw [h] at hres
    cases attached with
    | some record =>
      injection hres with hres
      subst hres
      refine ⟨by simp, by simp, ?_, rfl, rfl, rfl⟩
      simp [see_trigger_ne_read_trigger]
    | none =>
      injection hres with hres
      subst hres
      refine ⟨by simp, by simp, by simp, rfl, rfl, rfl⟩

/-- Witness for C5 (spec Scenario E): a first-ever advance that reaches the
thread's last post emits the cascade exactly once and includes the
`see_thread_<id>` trigger. -/
theorem c5_sync_record_events_witness :
    c5w_thread.read_record = some none ∧
    c5w_reply.posted_on = c5w_thread.last_post_on ∧
    (("see_thread_" ++ toString c5w_thread.pk) ∈ c5w_res.notification_triggers) ∧
    c5w_res.thread_read_signals = 1 ∧
    c5w_res.category_sync_calls = 1 ∧
    c5w_res.read_user_notifications_calls = 1 := by
  have h := (c5_sync_record_events c5w_user c5w_thread c5w_reply none rfl).2 c5w_res rfl
  obtain ⟨h1, h2, h3, h4, h5, h6⟩ := h
  exact ⟨rfl, rfl, h3.mpr rfl, by simpa using h4, by simpa using h5, h6⟩

/-- C6: for an authenticated user with trackable thread content, a missing
`CategoryRead` leads to one `categoriestracker.start_record` call (lazy
creation) with the thread returned unread and new; an existing
`CategoryRead` whose `last_read_on` is newer than the thread's
`last_post_on` marks the thread fully read with no `ThreadRead` lookup. -/
theorem c6_single_thread_category_watermark (now : Int) (user : User) (thread : Thread)
    (hauth : user.is_anonymous = false)
    (htracked : is_date_tracked thread.last_post_on user none = true) :
    (get_category_record user.categoriesread_set thread.category_id = none →
      make_thread_read_aware now user thread =
        ({ thread with
              is_read := some false, is_new := some true, read_record := some none,
              last_read_on := some user.reads_cutoff },
          ⟨1, 0, 1⟩)) ∧
    (∀ category_record,
      get_category_record user.categoriesread_set thread.category_id = some category_record →
      thread.last_post_on < category_record.last_read_on →
      make_thread_read_aware now user thread =
        ({ thread with
              is_read := some true, is_new := some false, read_record := some none,
              last_read_on := some user.reads_cutoff },
          ⟨1, 0, 0⟩)) := by
  constructor
  · intro hrec
    simp [make_thread_read_aware, User.is_authenticated, hauth, htracked, hrec]
  · intro category_record hrec hlt
    have hnot : ¬(category_record.last_read_on < thread.last_post_on) := by omega
    simp [make_thread_read_aware, User.is_authenticated, hauth, htracked, hrec, hnot]

/-- Witness for C6 (spec Scenario B): no `CategoryRead` exists, so the
category watermark is lazily started and the thread comes back unread and
new. -/
theorem c6_single_thread_category_watermark_witness :
    c6w_user.is_anonymous = false ∧
    is_date_tracked c6w_thread.last_post_on c6w_user none = true ∧
    get_category_record c6w_user.categoriesread_set c6w_thread.category_id = none ∧
    make_thread_read_aware 100 c6w_user c6w_thread =
      ({ c6w_thread with
            is_read := some false, is_new := some true, read_record := some none,
            last_read_on := some c6w_user.reads_cutoff },
        ⟨1, 0, 1⟩) := by
  refine ⟨rfl, by decide, by decide, ?_⟩
  exact (c6_single_thread_category_watermark 100 c6w_user c6w_thread rfl (by decide)).1
    (by decide)

/-- C8, counterexample: a thread with `is_read` set (to false) but no
`last_read_on` annotation — e.g. one annotated by the batch path, which
never sets `last_read_on` — makes `make_posts_read_aware` fail with an
attribute error on the first tracked post, refuting both directions of the
claim: the failure is not the descriptive usage error, and it occurs even
though `is_read` is set. -/
theorem c8_counterexample :
    c8x_thread.is_read = some false ∧
    make_posts_read_aware c8x_user c8x_thread c8x_posts =
      Except.error last_read_on_attribute_error ∧
    last_read_on_attribute_error ≠ posts_usage_error := by
  refine ⟨rfl, rfl, by decide⟩

/-- C8, amended: `make_posts_read_aware` fails with the descriptive usage
error exactly when `is_read` is unset; on a read thread every post is
marked read; on an unread thread it additionally needs the `last_read_on`
annotation (set by the single-thread annotator), and then marks each post
read iff the post is untrackable or `posted_on <= thread.last_read_on`. -/
theorem c8_posts_marking (user : User) (thread : Thread) (posts : List Post) :
    (thread.is_read = none →
      make_posts_read_aware user thread posts = Except.error posts_usage_error) ∧
    (thread.is_read = some true →
      make_posts_read_aware user thread posts =
        Except.ok (posts.map fun post => { post with is_read := some true })) ∧
    (∀ w, thread.is_read = some false → thread.last_read_on = some w →
      make_posts_read_aware user thread posts =
        Except.ok (posts.map fun post =>
          { post with is_read := some (!is_date_tracked post.posted_on user none ||
              decide (post.posted_on ≤ w)) })) := by
  refine ⟨fun h => by simp [make_posts_read_aware, h],
    fun h => by simp [make_posts_read_aware, h], fun w hf hw => ?_⟩
  have hloop : ∀ ps, read_posts_loop user thread ps =
      Except.ok (ps.map fun post =>
        { post with is_read := some (!is_date_tracked post.posted_on user none ||
            decide (post.posted_on ≤ w)) }) := by
    intro ps
    induction ps with
    | nil => rfl
    | cons p rest ih =>
      by_cases hp : is_date_tracked p.posted_on user none
      · simp [read_posts_loop, hp, hw, ih, Except.map]
      · simp [read_posts_loop, hp, ih, Except.map]
  simp [make_posts_read_aware, hf, hloop]

/-- Witness for the amended C8: an untracked post and an old tracked post
are read, a tracked post newer than the watermark is unread. -/
theorem c8_posts_marking_witness :
    c8w_thread.is_read = some false ∧
    c8w_thread.last_read_on = some 5 ∧
    make_posts_read_aware c8w_user c8w_thread c8w_posts =
      Except.ok
        [{ posted_on := -1, is_moderated := false, is_read := some true },
         { posted_on := 3, is_moderated := false, is_read := some true },
         { posted_on := 7, is_moderated := false, is_read := some false }] := by
  refine ⟨rfl, rfl, ?_⟩
  have h := (c8_posts_marking c8w_user c8w_thread c8w_posts).2.2 5 rfl rfl
  rw [h]
  rfl

end Misago
